import Mathlib

/-!
Shallow embedding of the wrf-python file `wrf/projection.py` (the map-projection
translation core) and verification of its specification claims.

Numeric attribute values are modelled as exact rationals (the Python code only
ever compares, negates, adds and subtracts them).  A Python value that may be
`None` is an `Option ℚ`.  Code paths that raise are modelled with
`Except String`.  The four output representations (PROJ string, CF dict,
PyNGL resources, basemap keyword arguments) are modelled as association lists
of key/value tokens, which is what the Python code builds (the PROJ string is
a space-separated rendering of exactly those key=value tokens).
-/

set_option maxRecDepth 4096

/-- Modelled from the spec (§3, §4.3): a corner point as a (latitude,
longitude) pair.  The class lives in `wrf/coordpair.py`, which is not part of
the provided source; only the `lat`/`lon` attributes are used here. -/
structure CoordPair where
  lat : ℚ
  lon : ℚ
  deriving DecidableEq

/-- A 2-D array of coordinate values, as used for the `lats`/`lons`
construction mode.  Only the `[0,0]` and `[-1,-1]` elements are read by the
source. -/
structure Grid2D where
  rows : List (List ℚ)
  deriving DecidableEq

/-- The `lats[0,0]` access: first element of the first row (none models the
IndexError an empty array would raise). -/
def Grid2D.first00 (g : Grid2D) : Option ℚ :=
  g.rows.head?.bind List.head?

/-- The `lats[-1,-1]` access: last element of the last row. -/
def Grid2D.lastLast (g : Grid2D) : Option ℚ :=
  g.rows.getLast?.bind List.getLast?

/-- Upper-casing of a key string, character by character (the semantics of
the Python method `str.upper` on the ASCII attribute names used here). -/
def strUpper (s : String) : String :=
  String.mk (s.data.map Char.toUpper)

/-- Modelled from the spec (§4.1): `dict_keys_to_upper` from `wrf/projutils.py`
(not part of the provided source): upper-case every key, preserve values. -/
def dict_keys_to_upper (d : List (String × ℚ)) : List (String × ℚ) :=
  d.map (fun p => (strUpper p.1, p.2))

deriving instance DecidableEq for Except

/-- `dict.get(key, None)` on the parameter bag. -/
def dget (d : List (String × ℚ)) (k : String) : Option ℚ :=
  (d.find? (fun p => p.1 == k)).map Prod.snd

/-- `_ismissing` (projection.py lines 84-99): true if the value is None,
greater than 90, or less than -90. -/
def ismissing : Option ℚ → Bool
  | none => true
  | some v => decide (v > 90) || decide (v < -90)

namespace Constants

/-- Modelled from the spec: the WRF earth radius constant from
`wrf/constants.py` (not part of the provided source); its numeric value is
irrelevant to every claim. -/
def WRF_EARTH_RADIUS : ℚ := 6370000

end Constants

namespace ProjectionTypes

/-- Modelled from the spec (§2, §4.10): integer projection type codes from
`wrf/constants.py` (not part of the provided source).  The spec fixes code 0
as the "zero" code and names a distinct lat-lon code; the WRF numbering used
here is 1 = Lambert Conformal, 2 = Polar Stereographic, 3 = Mercator,
6 = lat-lon. -/
def ZERO : ℚ := 0

/-- Modelled from the spec: the Lambert Conformal type code. -/
def LAMBERT_CONFORMAL : ℚ := 1

/-- Modelled from the spec: the Polar Stereographic type code. -/
def POLAR_STEREOGRAPHIC : ℚ := 2

/-- Modelled from the spec: the Mercator type code. -/
def MERCATOR : ℚ := 3

/-- Modelled from the spec: the lat-lon type code. -/
def LAT_LON : ℚ := 6

end ProjectionTypes

/-- A value in a PROJ/PyNGL/basemap parameter token: either a string token or
a numeric token (whose payload may be Python `None`). -/
inductive PVal where
  | str (s : String)
  | num (q : Option ℚ)
  deriving DecidableEq

/-- A value in the CF attribute mapping: a string, a number (possibly None),
or a list of numbers (possibly containing None, as `standard_parallel` can). -/
inductive CFVal where
  | str (s : String)
  | num (q : Option ℚ)
  | list (l : List (Option ℚ))
  deriving DecidableEq

/-- Lookup of a key in one of the built parameter mappings. -/
def lookupKV {α : Type} (m : List (String × α)) (k : String) : Option α :=
  (m.find? (fun p => p.1 == k)).map Prod.snd

/-- Lookup through an optional mapping (used for the capability-gated
PyNGL/basemap builders, which return None when the capability is off). -/
def lookupRes {α : Type} (m : Option (List (String × α))) (k : String) :
    Option α :=
  m.bind (fun l => lookupKV l k)

/-- The state stored by `WrfProj.__init__` (projection.py lines 144-225). -/
structure WrfProj where
  ll_lat : ℚ
  ll_lon : ℚ
  ur_lat : ℚ
  ur_lon : ℚ
  map_proj : Option ℚ
  cen_lat : Option ℚ
  cen_lon : Option ℚ
  truelat1 : Option ℚ
  truelat2 : Option ℚ
  moad_cen_lat : Option ℚ
  stand_lon : Option ℚ
  pole_lat : Option ℚ
  pole_lon : Option ℚ
  dx : Option ℚ
  dy : Option ℚ
  deriving DecidableEq

/-- The corner-selection prelude of `WrfProj.__init__` (lines 180-195):
explicit corners when bottom_left and top_right are both given, else the grid
corners when lats and lons are both given, else ValueError.  Returns
(ll_lat, ll_lon, ur_lat, ur_lon). -/
def cornersOf (bottom_left top_right : Option CoordPair)
    (lats lons : Option Grid2D) : Except String (ℚ × ℚ × ℚ × ℚ) :=
  match bottom_left, top_right with
  | some bl, some tr => Except.ok (bl.lat, bl.lon, tr.lat, tr.lon)
  | _, _ =>
    match lats, lons with
    | some la, some lo =>
      match la.first00, la.lastLast, lo.first00, lo.lastLast with
      | some a, some b, some c, some d => Except.ok (a, c, b, d)
      | _, _, _, _ => Except.error "IndexError"
    | _, _ => Except.error "invalid corner point arguments"

/-- The parameter-extraction part of `WrfProj.__init__` (lines 198-225):
upper-case the bag, pull each attribute (TRUELAT2 is nulled out when missing
per `_ismissing`), and fall back to CEN_LAT/CEN_LON for
moad_cen_lat/stand_lon when those are unset. -/
def WrfProj.fromParams (c : ℚ × ℚ × ℚ × ℚ) (ps : List (String × ℚ)) :
    WrfProj :=
  let up := dict_keys_to_upper ps
  let cen_lat := dget up "CEN_LAT"
  let cen_lon := dget up "CEN_LON"
  let moad := dget up "MOAD_CEN_LAT"
  let slon := dget up "STAND_LON"
  { ll_lat := c.1
    ll_lon := c.2.1
    ur_lat := c.2.2.1
    ur_lon := c.2.2.2
    map_proj := dget up "MAP_PROJ"
    cen_lat := cen_lat
    cen_lon := cen_lon
    truelat1 := dget up "TRUELAT1"
    truelat2 :=
      if ismissing (dget up "TRUELAT2") then none else dget up "TRUELAT2"
    moad_cen_lat := match moad with
      | none => cen_lat
      | some m => some m
    stand_lon := match slon with
      | none => cen_lon
      | some s => some s
    pole_lat := dget up "POLE_LAT"
    pole_lon := dget up "POLE_LON"
    dx := dget up "DX"
    dy := dget up "DY" }

/-- `WrfProj.__init__` in full. -/
def WrfProj.init (bottom_left top_right : Option CoordPair)
    (lats lons : Option Grid2D) (ps : List (String × ℚ)) :
    Except String WrfProj :=
  (cornersOf bottom_left top_right lats lons).map
    (fun c => WrfProj.fromParams c ps)

/-- Base `WrfProj._cf_params` (line 231): None. -/
def WrfProj.cf_params (_ : WrfProj) : Option (List (String × CFVal)) := none

/-- Base `WrfProj._proj4` (line 243): None. -/
def WrfProj.proj4 (_ : WrfProj) : Option (List (String × PVal)) := none

/-- Base `WrfProj._pyngl` (line 240): None. -/
def WrfProj.pyngl (_ : WrfProj) : Option (List (String × PVal)) := none

/-- Base `WrfProj._basemap` (line 228): None. -/
def WrfProj.basemap (_ : WrfProj) (_resolution : String) :
    Option (List (String × PVal)) := none

/-- Base `WrfProj._cart_extents` (line 237): the raw lat/lon corners
reinterpreted as plane x/y extents. -/
def WrfProj.cart_extents (s : WrfProj) : List ℚ × List ℚ :=
  ([s.ll_lon, s.ur_lon], [s.ll_lat, s.ur_lat])

/-- `LambertConformal` state: the base state plus `_std_parallels`
(lines 444-446). -/
structure LambertConformal extends WrfProj where
  std_parallels : List (Option ℚ)
  deriving DecidableEq

/-- `LambertConformal.__init__`: `_std_parallels = [truelat1]` plus truelat2
when it is not None. -/
def LambertConformal.init (bottom_left top_right : Option CoordPair)
    (lats lons : Option Grid2D) (ps : List (String × ℚ)) :
    Except String LambertConformal :=
  (WrfProj.init bottom_left top_right lats lons ps).map (fun base =>
    { toWrfProj := base
      std_parallels := [base.truelat1] ++
        (match base.truelat2 with
         | some t2 => [some t2]
         | none => []) })

/-- `LambertConformal._cf_params` (lines 449-457). -/
def LambertConformal.cf_params (s : LambertConformal) :
    List (String × CFVal) :=
  [("grid_mapping_name", CFVal.str "lambert_conformal_conic"),
   ("standard_parallel", CFVal.list s.std_parallels),
   ("longitude_of_central_meridian", CFVal.num s.stand_lon),
   ("latitude_of_projection_origin", CFVal.num s.moad_cen_lat),
   ("semi_major_axis", CFVal.num (some Constants.WRF_EARTH_RADIUS))]

/-- `LambertConformal._pyngl` (lines 460-480): gated on `pyngl_enabled()`;
note the substitution of truelat1 for a missing truelat2. -/
def LambertConformal.pyngl (s : LambertConformal) (pyngl_enabled : Bool) :
    Option (List (String × PVal)) :=
  if !pyngl_enabled then none
  else
    let truelat2 := if ismissing s.truelat2 then s.truelat1 else s.truelat2
    some [("mpProjection", PVal.str "LambertConformal"),
      ("mpDataBaseVersion", PVal.str "MediumRes"),
      ("mpLimitMode", PVal.str "Corners"),
      ("mpLeftCornerLonF", PVal.num (some s.ll_lon)),
      ("mpLeftCornerLatF", PVal.num (some s.ll_lat)),
      ("mpRightCornerLonF", PVal.num (some s.ur_lon)),
      ("mpRightCornerLatF", PVal.num (some s.ur_lat)),
      ("mpLambertMeridianF", PVal.num s.stand_lon),
      ("mpLambertParallel1F", PVal.num s.truelat1),
      ("mpLambertParallel2F", PVal.num truelat2)]

/-- `LambertConformal._basemap` (lines 483-499): gated on
`basemap_enabled()`; passes `lat_2 = self.truelat2` through unmodified. -/
def LambertConformal.basemap (s : LambertConformal) (basemap_enabled : Bool)
    (resolution : String) : Option (List (String × PVal)) :=
  if !basemap_enabled then none
  else
    some [("projection", PVal.str "lcc"),
      ("lon_0", PVal.num s.stand_lon),
      ("lat_0", PVal.num s.moad_cen_lat),
      ("lat_1", PVal.num s.truelat1),
      ("lat_2", PVal.num s.truelat2),
      ("llcrnrlat", PVal.num (some s.ll_lat)),
      ("urcrnrlat", PVal.num (some s.ur_lat)),
      ("llcrnrlon", PVal.num (some s.ll_lon)),
      ("urcrnrlon", PVal.num (some s.ur_lon)),
      ("rsphere", PVal.num (some Constants.WRF_EARTH_RADIUS)),
      ("resolution", PVal.str resolution)]

/-- `LambertConformal._proj4` (lines 526-539): substitutes truelat1 for a
missing truelat2 in the `+lat_2=` token. -/
def LambertConformal.proj4 (s : LambertConformal) : List (String × PVal) :=
  let truelat2 := if ismissing s.truelat2 then s.truelat1 else s.truelat2
  [("proj", PVal.str "lcc"),
   ("units", PVal.str "meters"),
   ("a", PVal.num (some Constants.WRF_EARTH_RADIUS)),
   ("b", PVal.num (some Constants.WRF_EARTH_RADIUS)),
   ("lat_1", PVal.num s.truelat1),
   ("lat_2", PVal.num truelat2),
   ("lat_0", PVal.num s.moad_cen_lat),
   ("lon_0", PVal.num s.stand_lon)]

/-- `Mercator` state: the base state plus `_lat_ts` (lines 588-590). -/
structure Mercator extends WrfProj where
  lat_ts : Option ℚ
  deriving DecidableEq

/-- `Mercator.__init__`: `_lat_ts` is None when truelat1 == 0 or missing,
else truelat1. -/
def Mercator.init (bottom_left top_right : Option CoordPair)
    (lats lons : Option Grid2D) (ps : List (String × ℚ)) :
    Except String Mercator :=
  (WrfProj.init bottom_left top_right lats lons ps).map (fun base =>
    { toWrfProj := base
      lat_ts :=
        if base.truelat1 = some 0 ∨ ismissing base.truelat1 = true then none
        else base.truelat1 })

/-- `Mercator._cf_params` (lines 593-600). -/
def Mercator.cf_params (s : Mercator) : List (String × CFVal) :=
  [("grid_mapping_name", CFVal.str "mercator"),
   ("longitude_of_projection_origin", CFVal.num s.stand_lon),
   ("standard_parallel", CFVal.num s.truelat1)]

/-- `PolarStereographic` state: the base state plus `_hemi` and `_lat_ts`
(lines 729-732). -/
structure PolarStereographic extends WrfProj where
  hemi : ℚ
  lat_ts : Option ℚ
  deriving DecidableEq

/-- `PolarStereographic.__init__`: `_hemi = -90 if truelat1 < 0 else 90`
(a missing truelat1 makes the comparison raise) and `_lat_ts` as for the
missing check. -/
def PolarStereographic.init (bottom_left top_right : Option CoordPair)
    (lats lons : Option Grid2D) (ps : List (String × ℚ)) :
    Except String PolarStereographic :=
  (WrfProj.init bottom_left top_right lats lons ps).bind (fun base =>
    match base.truelat1 with
    | none => Except.error "TypeError"
    | some t1 =>
      Except.ok
        { toWrfProj := base
          hemi := if t1 < 0 then -90 else 90
          lat_ts := if ismissing base.truelat1 then none else base.truelat1 })

/-- `PolarStereographic._cf_params` (lines 735-743). -/
def PolarStereographic.cf_params (s : PolarStereographic) :
    List (String × CFVal) :=
  [("grid_mapping_name", CFVal.str "polar_stereographic"),
   ("straight_vertical_longitude_from_pole", CFVal.num s.stand_lon),
   ("standard_parallel", CFVal.num s.truelat1),
   ("latitude_of_projection_origin", CFVal.num (some s.hemi))]

/-- `LatLon` state: identical to the base state (its `__init__` only calls
`super().__init__`). -/
structure LatLon extends WrfProj
  deriving DecidableEq

/-- `LatLon.__init__`. -/
def LatLon.init (bottom_left top_right : Option CoordPair)
    (lats lons : Option Grid2D) (ps : List (String × ℚ)) :
    Except String LatLon :=
  (WrfProj.init bottom_left top_right lats lons ps).map
    (fun base => { toWrfProj := base })

/-- `LatLon._cf_params` (lines 871-874). -/
def LatLon.cf_params (_ : LatLon) : List (String × CFVal) :=
  [("grid_mapping_name", CFVal.str "latitude_longitude")]

/-- The hemisphere determination of `RotatedLatLon.__init__`
(lines 1015-1026): start northern; pole_lon == 0 forces southern; a supplied
pole_lon other than 180 consults moad_cen_lat; an absent pole_lon consults
moad_cen_lat; a pole_lon of exactly 180 leaves the flag northern. -/
def rot_north (pole_lon moad_cen_lat : Option ℚ) : Bool :=
  match pole_lon with
  | some p =>
    if p = 0 then false
    else if p ≠ 180 then
      match moad_cen_lat with
      | some m => if m < 0 then false else true
      | none => true
    else true
  | none =>
    match moad_cen_lat with
    | some m => if m < 0 then false else true
    | none => true

/-- `RotatedLatLon` state: the base state plus the derived representation
quantities of lines 1028-1051. -/
structure RotatedLatLon extends WrfProj where
  north : Bool
  pyngl_cen_lat : ℚ
  pyngl_cen_lon : ℚ
  bm_lon_0 : ℚ
  bm_cart_pole_lat : ℚ
  cart_pole_lon : ℚ
  deriving DecidableEq

/-- The derived-field computation of `RotatedLatLon.__init__`
(lines 1028-1051).  The first branch runs when pole_lat and stand_lon are
both known; the fallback branch uses moad_cen_lat and stand_lon directly and
raises (TypeError on None arithmetic) when either is unset. -/
def RotatedLatLon.derive (base : WrfProj) : Except String RotatedLatLon :=
  let north := rot_north base.pole_lon base.moad_cen_lat
  match base.pole_lat, base.stand_lon with
  | some pole_lat, some stand_lon =>
    Except.ok
      { toWrfProj := base
        north := north
        pyngl_cen_lat := if north then 90 - pole_lat else pole_lat - 90
        pyngl_cen_lon := if north then -stand_lon else 180 - stand_lon
        bm_lon_0 := if north then -stand_lon else 180 - stand_lon
        bm_cart_pole_lat := if north then pole_lat else -pole_lat
        cart_pole_lon := if north then -stand_lon - 180 else -stand_lon }
  | _, _ =>
    match base.moad_cen_lat, base.stand_lon with
    | some moad_cen_lat, some stand_lon =>
      Except.ok
        { toWrfProj := base
          north := north
          pyngl_cen_lat := moad_cen_lat
          pyngl_cen_lon := stand_lon
          bm_cart_pole_lat :=
            if north then 90 - moad_cen_lat else -90 - moad_cen_lat
          bm_lon_0 := if north then -stand_lon else 180 - stand_lon
          cart_pole_lon := if north then -stand_lon - 180 else -stand_lon }
    | _, _ => Except.error "TypeError"

/-- `RotatedLatLon.__init__` in full. -/
def RotatedLatLon.init (bottom_left top_right : Option CoordPair)
    (lats lons : Option Grid2D) (ps : List (String × ℚ)) :
    Except String RotatedLatLon :=
  (WrfProj.init bottom_left top_right lats lons ps).bind RotatedLatLon.derive

/-- `RotatedLatLon._cf_params` (lines 1054-1062). -/
def RotatedLatLon.cf_params (s : RotatedLatLon) : List (String × CFVal) :=
  [("grid_mapping_name", CFVal.str "rotated_latitude_longitude"),
   ("grid_north_pole_latitude", CFVal.num (some s.bm_cart_pole_lat)),
   ("grid_north_pole_longitude", CFVal.num s.pole_lon),
   ("north_pole_grid_longitude", CFVal.num (some s.bm_lon_0))]

/-- The sign-correction step of `MercatorWithLatTS.__init__` (lines 72-76):
when the two computed x-limits coincide, negate whichever one is
non-negative. -/
def fix_xlimits (x0 x1 : ℚ) : ℚ × ℚ :=
  if x0 = x1 then
    if x0 < 0 then (x0, -x1) else (-x0, x1)
  else (x0, x1)

/-- The closed family of variants the factory can return. -/
inductive ProjVariant where
  | lambert (s : LambertConformal)
  | polar (s : PolarStereographic)
  | mercator (s : Mercator)
  | latlon (s : LatLon)
  | rotated (s : RotatedLatLon)
  | base (s : WrfProj)
  deriving DecidableEq

/-- `getproj` (lines 1138-1206): uppercase the bag, default the type code to
0, dispatch on the type code; codes 0 and lat-lon further branch on the
POLE_LAT == 90 and POLE_LON == 0 check; anything else degrades to the base
class. -/
def getproj (bottom_left top_right : Option CoordPair)
    (lats lons : Option Grid2D) (ps : List (String × ℚ)) :
    Except String ProjVariant :=
  let up := dict_keys_to_upper ps
  let proj_type := (dget up "MAP_PROJ").getD 0
  if proj_type = ProjectionTypes.LAMBERT_CONFORMAL then
    (LambertConformal.init bottom_left top_right lats lons ps).map
      ProjVariant.lambert
  else if proj_type = ProjectionTypes.POLAR_STEREOGRAPHIC then
    (PolarStereographic.init bottom_left top_right lats lons ps).map
      ProjVariant.polar
  else if proj_type = ProjectionTypes.MERCATOR then
    (Mercator.init bottom_left top_right lats lons ps).map
      ProjVariant.mercator
  else if proj_type = ProjectionTypes.ZERO ∨
      proj_type = ProjectionTypes.LAT_LON then
    if dget up "POLE_LAT" = some 90 ∧ dget up "POLE_LON" = some 0 then
      (LatLon.init bottom_left top_right lats lons ps).map ProjVariant.latlon
    else
      (RotatedLatLon.init bottom_left top_right lats lons ps).map
        ProjVariant.rotated
  else
    (WrfProj.init bottom_left top_right lats lons ps).map ProjVariant.base

/-- Which variant a factory result is. -/
inductive PTag where
  | lambert
  | polar
  | mercator
  | latlon
  | rotated
  | base
  deriving DecidableEq

/-- The variant kind of a factory result. -/
def ProjVariant.tag : ProjVariant → PTag
  | .lambert _ => .lambert
  | .polar _ => .polar
  | .mercator _ => .mercator
  | .latlon _ => .latlon
  | .rotated _ => .rotated
  | .base _ => .base

/-- The stored `map_proj` attribute of a factory result. -/
def ProjVariant.map_proj : ProjVariant → Option ℚ
  | .lambert s => s.map_proj
  | .polar s => s.map_proj
  | .mercator s => s.map_proj
  | .latlon s => s.map_proj
  | .rotated s => s.map_proj
  | .base s => s.map_proj

/-- The dispatch table exactly as the specification states it (§4.10,
claim C1), as a function of the effective type code and the raw POLE_LAT and
POLE_LON bag entries; written independently of `getproj` so the factory can
be proved to refine it. -/
def specDispatch (proj_type : ℚ) (pole_lat pole_lon : Option ℚ) : PTag :=
  if proj_type = ProjectionTypes.LAMBERT_CONFORMAL then PTag.lambert
  else if proj_type = ProjectionTypes.POLAR_STEREOGRAPHIC then PTag.polar
  else if proj_type = ProjectionTypes.MERCATOR then PTag.mercator
  else if proj_type = ProjectionTypes.ZERO ∨
      proj_type = ProjectionTypes.LAT_LON then
    if pole_lat = some 90 ∧ pole_lon = some 0 then PTag.latlon
    else PTag.rotated
  else PTag.base

/-- Whether moad_cen_lat is known and negative (the heuristic input of the
hemisphere rules of claim C2). -/
def moadKnownNegative : Option ℚ → Bool
  | some m => decide (m < 0)
  | none => false

/-- The hemisphere rule exactly as claim C2 states it: pole_lon supplied and
0 means southern; pole_lon supplied and not 180 means southern iff
moad_cen_lat is known and negative; otherwise (absent or 180) northern unless
moad_cen_lat is known and negative. -/
def claimC2North (pole_lon moad_cen_lat : Option ℚ) : Bool :=
  match pole_lon with
  | some p =>
    if p = 0 then false
    else if p ≠ 180 then !moadKnownNegative moad_cen_lat
    else !moadKnownNegative moad_cen_lat
  | none => !moadKnownNegative moad_cen_lat

/-- The hemisphere rule as the code actually implements it (amended claim
C2): a supplied pole_lon of exactly 180 is northern regardless of
moad_cen_lat; the moad_cen_lat heuristic applies only to a supplied
pole_lon other than 0 and 180, or to an absent pole_lon. -/
def amendedC2North (pole_lon moad_cen_lat : Option ℚ) : Bool :=
  match pole_lon with
  | some p =>
    if p = 0 then false
    else if p = 180 then true
    else !moadKnownNegative moad_cen_lat
  | none => !moadKnownNegative moad_cen_lat

/-! ### Helper lemmas -/

theorem except_map_ok {α β : Type} (f : α → β) (x : Except String α) (b : β)
    (h : x.map f = Except.ok b) : ∃ a, x = Except.ok a ∧ b = f a := by
  cases x with
  | error e => simp [Except.map] at h
  | ok a => exact ⟨a, rfl, by simpa [Except.map] using h.symm⟩

theorem except_map_congr_const {α β : Type} {x : Except String α} {f : α → β}
    {t : β} (h : ∀ a, x = Except.ok a → f a = t) :
    x.map f = x.map (fun _ => t) := by
  cases x with
  | error e => rfl
  | ok a => simp [Except.map, h a rfl]

theorem except_map_error_iff {α β : Type} (f : α → β) (x : Except String α)
    (e : String) : x.map f = Except.error e ↔ x = Except.error e := by
  cases x <;> simp [Except.map]

theorem rot_north_eq_amended (pole_lon moad_cen_lat : Option ℚ) :
    rot_north pole_lon moad_cen_lat = amendedC2North pole_lon moad_cen_lat := by
  cases pole_lon with
  | none =>
    cases moad_cen_lat with
    | none => rfl
    | some m =>
      by_cases hm : m < 0 <;>
        simp [rot_north, amendedC2North, moadKnownNegative, hm]
  | some p =>
    by_cases h0 : p = 0
    · simp [rot_north, amendedC2North, h0]
    · by_cases h180 : p = 180
      · simp [rot_north, amendedC2North, h0, h180]
      · cases moad_cen_lat with
        | none => simp [rot_north, amendedC2North, h0, h180, moadKnownNegative]
        | some m =>
          by_cases hm : m < 0 <;>
            simp [rot_north, amendedC2North, h0, h180, moadKnownNegative, hm]

theorem cornersOf_invalid_iff (bl tr : Option CoordPair) (la lo : Option Grid2D) :
    cornersOf bl tr la lo = Except.error "invalid corner point arguments" ↔
      (bl.isSome && tr.isSome) = false ∧ (la.isSome && lo.isSome) = false := by
  rcases bl with _ | b <;> rcases tr with _ | t <;>
    rcases la with _ | glats <;> rcases lo with _ | glons <;>
      simp only [cornersOf, Option.isSome_none, Option.isSome_some,
        Bool.and_self, Bool.and_false, Bool.false_and, Bool.true_and] <;>
    try simp
  all_goals
    cases glats.first00 <;> cases glats.lastLast <;>
      cases glons.first00 <;> cases glons.lastLast <;> simp

theorem derive_keeps_base (base : WrfProj) (a : RotatedLatLon)
    (h : RotatedLatLon.derive base = Except.ok a) : a.toWrfProj = base := by
  unfold RotatedLatLon.derive at h
  rcases hp : base.pole_lat with _ | plat <;>
    rcases hs : base.stand_lon with _ | slon <;>
      rcases hm : base.moad_cen_lat with _ | m <;>
        simp [hp, hs, hm] at h <;> simp [← h]

/-! ### Claim theorems -/

/-- C1: for every parameter bag and corner input on which the factory
succeeds, `getproj` returns the variant prescribed by the dispatch table
(Lambert Conformal code to LambertConformal, Polar Stereographic code to
PolarStereographic, Mercator code to Mercator, code 0 or the lat-lon code to
LatLon when POLE_LAT is 90 and POLE_LON is 0 and otherwise to RotatedLatLon,
anything else to the base class), and the base (unknown) variant has
extent-only capability: all of its specialized output builders return none
and its bounding box is the raw corner box. -/
theorem C1_factory_dispatch (bl tr : Option CoordPair) (la lo : Option Grid2D)
    (ps : List (String × ℚ)) :
    (getproj bl tr la lo ps).map ProjVariant.tag =
      (getproj bl tr la lo ps).map (fun _ =>
        specDispatch ((dget (dict_keys_to_upper ps) "MAP_PROJ").getD 0)
          (dget (dict_keys_to_upper ps) "POLE_LAT")
          (dget (dict_keys_to_upper ps) "POLE_LON")) ∧
    (∀ s : WrfProj, s.cf_params = none ∧ s.proj4 = none ∧ s.pyngl = none ∧
      (∀ r, s.basemap r = none) ∧
      s.cart_extents = ([s.ll_lon, s.ur_lon], [s.ll_lat, s.ur_lat])) := by
  refine ⟨?_, fun s => ⟨rfl, rfl, rfl, fun r => rfl, rfl⟩⟩
  apply except_map_congr_const
  intro v hv
  simp only [getproj, specDispatch] at hv ⊢
  by_cases h1 : (dget (dict_keys_to_upper ps) "MAP_PROJ").getD 0 =
      ProjectionTypes.LAMBERT_CONFORMAL
  · simp only [if_pos h1] at hv ⊢
    obtain ⟨a, -, rfl⟩ := except_map_ok _ _ _ hv
    rfl
  · simp only [if_neg h1] at hv ⊢
    by_cases h2 : (dget (dict_keys_to_upper ps) "MAP_PROJ").getD 0 =
        ProjectionTypes.POLAR_STEREOGRAPHIC
    · simp only [if_pos h2] at hv ⊢
      obtain ⟨a, -, rfl⟩ := except_map_ok _ _ _ hv
      rfl
    · simp only [if_neg h2] at hv ⊢
      by_cases h3 : (dget (dict_keys_to_upper ps) "MAP_PROJ").getD 0 =
          ProjectionTypes.MERCATOR
      · simp only [if_pos h3] at hv ⊢
        obtain ⟨a, -, rfl⟩ := except_map_ok _ _ _ hv
        rfl
      · simp only [if_neg h3] at hv ⊢
        by_cases h4 : (dget (dict_keys_to_upper ps) "MAP_PROJ").getD 0 =
              ProjectionTypes.ZERO ∨
            (dget (dict_keys_to_upper ps) "MAP_PROJ").getD 0 =
              ProjectionTypes.LAT_LON
        · simp only [if_pos h4] at hv ⊢
          by_cases h5 : dget (dict_keys_to_upper ps) "POLE_LAT" = some 90 ∧
              dget (dict_keys_to_upper ps) "POLE_LON" = some 0
          · simp only [if_pos h5] at hv ⊢
            obtain ⟨a, -, rfl⟩ := except_map_ok _ _ _ hv
            rfl
          · simp only [if_neg h5] at hv ⊢
            obtain ⟨a, -, rfl⟩ := except_map_ok _ _ _ hv
            rfl
        · simp only [if_neg h4] at hv ⊢
          obtain ⟨a, -, rfl⟩ := except_map_ok _ _ _ hv
          rfl

/-- C2 counterexample: a bag with POLE_LON = 180 and MOAD_CEN_LAT = -30
(pole latitude and standard longitude supplied so construction succeeds)
yields the northern hemisphere flag, while the third branch of the claim
(pole-longitude equal to 180 with negative moad-center-latitude) prescribes
southern: the rule of the claim evaluates to southern (false) at exactly this
input. -/
theorem C2_hemisphere_counterexample :
    (RotatedLatLon.init (some ⟨1, 2⟩) (some ⟨3, 4⟩) none none
        [("POLE_LON", 180), ("MOAD_CEN_LAT", -30), ("POLE_LAT", 45),
         ("STAND_LON", 10)]).map RotatedLatLon.north = Except.ok true ∧
    claimC2North (some 180) (some (-30)) = false := by
  exact ⟨by decide, by decide⟩

/-- C2 amended: the hemisphere flag follows the documented priority order
except that a supplied pole-longitude equal to 180 always gives the northern
hemisphere, regardless of moad-center-latitude; the moad-center-latitude
heuristic applies only when pole-longitude is supplied and differs from both
0 and 180, or when pole-longitude is absent.  The flag is computed totally
(the hemisphere step never errors). -/
theorem C2_hemisphere_amended (bl tr : Option CoordPair) (la lo : Option Grid2D)
    (ps : List (String × ℚ)) :
    (RotatedLatLon.init bl tr la lo ps).map RotatedLatLon.north =
      (RotatedLatLon.init bl tr la lo ps).map (fun st =>
        amendedC2North st.pole_lon st.moad_cen_lat) := by
  unfold RotatedLatLon.init
  cases WrfProj.init bl tr la lo ps with
  | error e => rfl
  | ok base =>
    rcases hp : base.pole_lat with _ | plat <;>
      rcases hs : base.stand_lon with _ | slon <;>
        rcases hm : base.moad_cen_lat with _ | m <;>
          simp [RotatedLatLon.derive, hp, hs, hm, Except.map, Except.bind,
            rot_north_eq_amended]

/-- C3: for every LambertConformal construction, when the raw TRUELAT2 bag
entry is missing (absent or out of range per `_ismissing`) the PROJ
descriptor token `+lat_2=` and the CF mapping derived (last) standard
parallel both equal truelat1, and when it is present and valid they both
equal that TRUELAT2 value; the CF `standard_parallel` entry is the
standard-parallels list itself. -/
theorem C3_second_parallel (bl tr : Option CoordPair) (la lo : Option Grid2D)
    (ps : List (String × ℚ)) :
    (LambertConformal.init bl tr la lo ps).map (fun st =>
        (lookupKV st.proj4 "lat_2", lookupKV st.cf_params "standard_parallel",
         st.std_parallels.getLast?)) =
      (LambertConformal.init bl tr la lo ps).map (fun st =>
        if ismissing (dget (dict_keys_to_upper ps) "TRUELAT2") then
          (some (PVal.num st.truelat1), some (CFVal.list [st.truelat1]),
           some st.truelat1)
        else
          (some (PVal.num (dget (dict_keys_to_upper ps) "TRUELAT2")),
           some (CFVal.list
             [st.truelat1, dget (dict_keys_to_upper ps) "TRUELAT2"]),
           some (dget (dict_keys_to_upper ps) "TRUELAT2"))) := by
  unfold LambertConformal.init WrfProj.init
  cases cornersOf bl tr la lo with
  | error e => rfl
  | ok c =>
    have h2 : (WrfProj.fromParams c ps).truelat2 =
        if ismissing (dget (dict_keys_to_upper ps) "TRUELAT2") then none
        else dget (dict_keys_to_upper ps) "TRUELAT2" := rfl
    have hnone : ismissing none = true := rfl
    by_cases hm : ismissing (dget (dict_keys_to_upper ps) "TRUELAT2") = true
    · have ht : (WrfProj.fromParams c ps).truelat2 = none := by
        rw [h2, if_pos hm]
      simp [Except.map, hm, ht, hnone, lookupKV, LambertConformal.proj4,
        LambertConformal.cf_params, List.getLast?]
    · rcases hraw : dget (dict_keys_to_upper ps) "TRUELAT2" with _ | t2
      · rw [hraw, hnone] at hm; exact absurd rfl hm
      · have ht : (WrfProj.fromParams c ps).truelat2 = some t2 := by
          rw [h2, if_neg hm, hraw]
        rw [hraw] at hm
        simp [Except.map, hm, ht, lookupKV, LambertConformal.proj4,
          LambertConformal.cf_params, List.getLast?]

/-- C4 counterexample: with TRUELAT1 = 30 and TRUELAT2 absent, the PyNGL
mapping second-parallel resource is 30 (truelat1 substituted), not the
missing truelat2 (None) that the claim says is passed through unmodified. -/
theorem C4_toolkit_counterexample :
    (LambertConformal.init (some ⟨1, 2⟩) (some ⟨3, 4⟩) none none
        [("TRUELAT1", 30), ("STAND_LON", -97), ("MOAD_CEN_LAT", 40)]).map
        (fun st =>
          (lookupRes (st.pyngl true) "mpLambertParallel2F", st.truelat2)) =
      Except.ok (some (PVal.num (some 30)), none) ∧
    some (PVal.num (some (30 : ℚ))) ≠ some (PVal.num (none : Option ℚ)) := by
  exact ⟨by decide, by decide⟩

/-- C4 amended: of the two toolkit-specific mappings, only the basemap one
passes truelat2 through unmodified (even when missing); the PyNGL mapping
instead substitutes the same effective second parallel that the PROJ
descriptor uses (truelat1 when truelat2 is missing). -/
theorem C4_toolkit_parallels_amended (bl tr : Option CoordPair)
    (la lo : Option Grid2D) (ps : List (String × ℚ)) (r : String) :
    (LambertConformal.init bl tr la lo ps).map (fun st =>
        (lookupRes (st.basemap true r) "lat_2",
         lookupRes (st.pyngl true) "mpLambertParallel2F")) =
      (LambertConformal.init bl tr la lo ps).map (fun st =>
        (some (PVal.num st.truelat2), lookupKV st.proj4 "lat_2")) := rfl

/-- C5 counterexample: supplying both corner modes at once (explicit corners
and lat/lon grids) does not raise the construction error; the explicit
corners are used and the grids are ignored. -/
theorem C5_both_modes_counterexample :
    (WrfProj.init (some ⟨1, 2⟩) (some ⟨3, 4⟩) (some ⟨[[9]]⟩) (some ⟨[[8]]⟩)
        []).map (fun st => (st.ll_lat, st.ll_lon, st.ur_lat, st.ur_lon)) =
      Except.ok (1, 2, 3, 4) := by
  decide

/-- C5 amended: construction raises the corner construction error exactly
when neither corner-supplying mode is fully given (explicit corners need
both bottom_left and top_right; grids need both lats and lons); when both
modes are supplied together there is no error - the explicit corner pair
takes priority and determines the stored corners. -/
theorem C5_corner_modes_amended (bl tr : Option CoordPair)
    (la lo : Option Grid2D) (ps : List (String × ℚ)) :
    (WrfProj.init bl tr la lo ps = Except.error "invalid corner point arguments"
       ↔ (bl.isSome && tr.isSome) = false ∧ (la.isSome && lo.isSome) = false) ∧
    (∀ b t : CoordPair,
       (WrfProj.init (some b) (some t) la lo ps).map (fun st =>
           (st.ll_lat, st.ll_lon, st.ur_lat, st.ur_lon)) =
         Except.ok (b.lat, b.lon, t.lat, t.lon)) := by
  exact ⟨(except_map_error_iff _ _ _).trans (cornersOf_invalid_iff bl tr la lo),
    fun b t => rfl⟩

/-- C5 witness: with no corner information at all, construction does raise
the corner construction error. -/
theorem C5_corner_modes_witness :
    WrfProj.init none none none none ([] : List (String × ℚ)) =
      Except.error "invalid corner point arguments" :=
  (C5_corner_modes_amended none none none none []).1.mpr (by decide)

/-- C6: for every Mercator construction, the derived true-scale latitude is
None exactly when the TRUELAT1 bag entry is 0 or invalid (absent, above 90
or below -90); otherwise it equals that TRUELAT1 value. -/
theorem C6_mercator_true_scale (bl tr : Option CoordPair)
    (la lo : Option Grid2D) (ps : List (String × ℚ)) :
    (Mercator.init bl tr la lo ps).map Mercator.lat_ts =
      (Mercator.init bl tr la lo ps).map (fun _ =>
        if dget (dict_keys_to_upper ps) "TRUELAT1" = some 0 ∨
           ismissing (dget (dict_keys_to_upper ps) "TRUELAT1") = true then none
        else dget (dict_keys_to_upper ps) "TRUELAT1") := by
  unfold Mercator.init WrfProj.init
  cases cornersOf bl tr la lo with
  | error e => rfl
  | ok c => rfl

/-- C7: for every PolarStereographic construction whose TRUELAT1 is a value
t1 in [-90, 90], the hemisphere projection-origin latitude is exactly -90
when t1 < 0 and exactly +90 otherwise, and the CF mapping entry
latitude_of_projection_origin is exactly that hemisphere value. -/
theorem C7_polar_hemisphere (bl tr : Option CoordPair) (la lo : Option Grid2D)
    (ps : List (String × ℚ)) (t1 : ℚ)
    (h1 : dget (dict_keys_to_upper ps) "TRUELAT1" = some t1)
    (_h2 : -90 ≤ t1) (_h3 : t1 ≤ 90) :
    (PolarStereographic.init bl tr la lo ps).map (fun st =>
        (st.hemi, lookupKV st.cf_params "latitude_of_projection_origin")) =
      (PolarStereographic.init bl tr la lo ps).map (fun st =>
        ((if t1 < 0 then (-90 : ℚ) else 90),
         some (CFVal.num (some st.hemi)))) := by
  unfold PolarStereographic.init WrfProj.init
  cases cornersOf bl tr la lo with
  | error e => rfl
  | ok c =>
    have hb : (WrfProj.fromParams c ps).truelat1 = some t1 := h1
    simp [Except.map, Except.bind, hb, lookupKV,
      PolarStereographic.cf_params]

/-- C7 witness: a concrete southern-hemisphere instance (TRUELAT1 = -45)
whose origin latitude and CF latitude_of_projection_origin are exactly
-90. -/
theorem C7_polar_hemisphere_witness :
    (PolarStereographic.init (some ⟨1, 2⟩) (some ⟨3, 4⟩) none none
        [("TRUELAT1", -45), ("STAND_LON", 10)]).map (fun st =>
        (st.hemi, lookupKV st.cf_params "latitude_of_projection_origin")) =
      Except.ok ((-90 : ℚ), some (CFVal.num (some (-90 : ℚ)))) := by
  have h := C7_polar_hemisphere (some ⟨1, 2⟩) (some ⟨3, 4⟩) none none
    [("TRUELAT1", -45), ("STAND_LON", 10)] (-45) (by decide) (by norm_num)
    (by norm_num)
  rw [h]; decide

/-- C8: for every RotatedLatLon construction, the derived dateline longitude
equals minus the standard longitude minus 180 in the northern hemisphere and
minus the standard longitude in the southern hemisphere; in particular
pole_lat 36, pole_lon 0, stand_lon -106 gives the southern hemisphere and
dateline longitude 106. -/
theorem C8_rotated_dateline (bl tr : Option CoordPair) (la lo : Option Grid2D)
    (ps : List (String × ℚ)) :
    ((RotatedLatLon.init bl tr la lo ps).map (fun st =>
        some st.cart_pole_lon) =
      (RotatedLatLon.init bl tr la lo ps).map (fun st =>
        st.stand_lon.map (fun s => if st.north then -s - 180 else -s))) ∧
    (RotatedLatLon.init (some ⟨1, 2⟩) (some ⟨3, 4⟩) none none
        [("POLE_LAT", 36), ("POLE_LON", 0), ("STAND_LON", -106)]).map
        (fun st => (st.north, st.cart_pole_lon)) =
      Except.ok (false, 106) := by
  constructor
  · unfold RotatedLatLon.init
    cases WrfProj.init bl tr la lo ps with
    | error e => rfl
    | ok base =>
      rcases hp : base.pole_lat with _ | plat <;>
        rcases hs : base.stand_lon with _ | slon <;>
          rcases hm : base.moad_cen_lat with _ | m <;>
            simp [RotatedLatLon.derive, hp, hs, hm, Except.map, Except.bind]
  · decide

/-- C9 counterexample: at coincident x-limits equal to 0, the
sign-correction step leaves both limits 0, which is neither a pair of
distinct limits nor a strictly-negative/strictly-positive pair. -/
theorem C9_xlimits_counterexample :
    ¬ ((fix_xlimits 0 0).1 ≠ (fix_xlimits 0 0).2 ∧ (fix_xlimits 0 0).1 < 0 ∧
        0 < (fix_xlimits 0 0).2) := by
  decide

/-- C9 amended: for every pair of coincident NONZERO input limits, the
sign-correction step yields two distinct final limits, one strictly negative
and one strictly positive; when the coincident limits are zero both stay
zero. -/
theorem C9_xlimits_amended (c : ℚ) (hc : c ≠ 0) :
    (fix_xlimits c c).1 < 0 ∧ 0 < (fix_xlimits c c).2 ∧
      (fix_xlimits c c).1 ≠ (fix_xlimits c c).2 := by
  rcases lt_trichotomy c 0 with h | h | h
  · have hfix : fix_xlimits c c = (c, -c) := by
      unfold fix_xlimits; rw [if_pos rfl, if_pos h]
    rw [hfix]
    exact ⟨h, neg_pos.mpr h, fun he => hc (by
      have he2 : c = -c := he
      linarith)⟩
  · exact absurd h hc
  · have hfix : fix_xlimits c c = (-c, c) := by
      unfold fix_xlimits; rw [if_pos rfl, if_neg (not_lt.mpr h.le)]
    rw [hfix]
    exact ⟨neg_neg_of_pos h, h, fun he => hc (by
      have he2 : -c = c := he
      linarith)⟩

/-- C9 witness: the amended property at the concrete coincident limits
(7, 7). -/
theorem C9_xlimits_witness :
    (fix_xlimits 7 7).1 < 0 ∧ 0 < (fix_xlimits 7 7).2 ∧
      (fix_xlimits 7 7).1 ≠ (fix_xlimits 7 7).2 :=
  C9_xlimits_amended 7 (by norm_num)

/-- C10: when the parameter bag has no MAP_PROJ key at all, the factory
treats the type code as 0: it returns the LatLon variant when POLE_LAT is 90
and POLE_LON is 0 and the RotatedLatLon variant otherwise (never the
base/unknown variant), while the map_proj attribute stored on the constructed object
is stored as absent (none), not 0. -/
theorem C10_absent_map_proj (bl tr : Option CoordPair) (la lo : Option Grid2D)
    (ps : List (String × ℚ))
    (hmp : dget (dict_keys_to_upper ps) "MAP_PROJ" = none) :
    (getproj bl tr la lo ps).map (fun v => (v.tag, v.map_proj)) =
      (getproj bl tr la lo ps).map (fun _ =>
        ((if dget (dict_keys_to_upper ps) "POLE_LAT" = some 90 ∧
             dget (dict_keys_to_upper ps) "POLE_LON" = some 0
          then PTag.latlon else PTag.rotated), (none : Option ℚ))) := by
  apply except_map_congr_const
  intro v hv
  simp only [getproj, hmp, Option.getD] at hv
  rw [if_neg (by decide), if_neg (by decide), if_neg (by decide),
    if_pos (by decide)] at hv
  by_cases hp : dget (dict_keys_to_upper ps) "POLE_LAT" = some 90 ∧
      dget (dict_keys_to_upper ps) "POLE_LON" = some 0
  · rw [if_pos hp] at hv
    rw [if_pos hp]
    obtain ⟨a, ha, rfl⟩ := except_map_ok _ _ _ hv
    refine Prod.ext rfl ?_
    show a.map_proj = none
    unfold LatLon.init WrfProj.init at ha
    cases hc : cornersOf bl tr la lo <;> rw [hc] at ha <;>
      simp [Except.map] at ha
    rw [← ha]
    show (WrfProj.fromParams _ ps).map_proj = none
    exact hmp
  · rw [if_neg hp] at hv
    rw [if_neg hp]
    obtain ⟨a, ha, rfl⟩ := except_map_ok _ _ _ hv
    refine Prod.ext rfl ?_
    show a.map_proj = none
    unfold RotatedLatLon.init WrfProj.init at ha
    cases hc : cornersOf bl tr la lo with
    | error e => rw [hc] at ha; simp [Except.map, Except.bind] at ha
    | ok cc =>
      rw [hc] at ha
      simp only [Except.map, Except.bind] at ha
      have hb := derive_keeps_base _ _ ha
      have hmap : a.map_proj = (WrfProj.fromParams cc ps).map_proj :=
        congrArg WrfProj.map_proj hb
      rw [hmap]
      exact hmp

/-- C10 witness: a concrete bag without MAP_PROJ and with POLE_LAT 90 and
POLE_LON 0 produces the LatLon variant with an absent stored map_proj. -/
theorem C10_absent_map_proj_witness :
    (getproj (some ⟨1, 2⟩) (some ⟨3, 4⟩) none none
        [("POLE_LAT", 90), ("POLE_LON", 0), ("STAND_LON", -97)]).map
        (fun v => (v.tag, v.map_proj)) =
      Except.ok (PTag.latlon, (none : Option ℚ)) := by
  have h := C10_absent_map_proj (some ⟨1, 2⟩) (some ⟨3, 4⟩) none none
    [("POLE_LAT", 90), ("POLE_LON", 0), ("STAND_LON", -97)] (by decide)
  rw [h]; decide
